import Mathlib

/-!
Verification of the response-normalization core of the family-karaoke API
(`src/core/exceptions.py`).  The function under study is

  def custom_exception_handler(exc, context):
      response = exception_handler(exc, context)
      if response is not None:
          error_message = response.data.get("detail", str(exc))
          response.data = {
              "error": str(error_message),
              "detail": response.data if not isinstance(response.data, str) else None,
          }
      return response

We embed the Python values that can appear as a response body, the DRF
response object, and the handler itself.  DRF's own `exception_handler` is an
external collaborator (framework code, not part of this repository), so it is
taken as an opaque function parameter.  Python attribute errors are made
explicit: calling `.get` on a value that is not a dict raises
`AttributeError`, which the embedding surfaces through `Except`.
-/

/-- Python values that can occur as a DRF response body: `None`, strings,
lists, and string-keyed dicts (the shapes relevant to DRF error payloads). -/
inductive PyValue where
  | none : PyValue
  | str (s : String) : PyValue
  | list (xs : List PyValue) : PyValue
  | dict (entries : List (String × PyValue)) : PyValue
deriving Repr

mutual

/-- Python `repr` of a value (used by `str` on lists and dicts). -/
def pyRepr : PyValue → String
  | PyValue.none => "None"
  | PyValue.str s => "'" ++ s ++ "'"
  | PyValue.list xs => "[" ++ pyReprElems xs ++ "]"
  | PyValue.dict es => "\x7b" ++ pyReprEntries es ++ "\x7d"

/-- `repr` of the comma-separated elements of a Python list. -/
def pyReprElems : List PyValue → String
  | [] => ""
  | [x] => pyRepr x
  | x :: xs => pyRepr x ++ ", " ++ pyReprElems xs

/-- `repr` of the comma-separated entries of a Python dict. -/
def pyReprEntries : List (String × PyValue) → String
  | [] => ""
  | [e] => "'" ++ e.1 ++ "': " ++ pyRepr e.2
  | e :: es => "'" ++ e.1 ++ "': " ++ pyRepr e.2 ++ ", " ++ pyReprEntries es

end

/-- Python `str()` of a value: identity on strings, `"None"` on `None`,
`repr` on lists and dicts. -/
def pyStr : PyValue → String
  | PyValue.str s => s
  | v => pyRepr v

/-- Python runtime errors the embedded code can raise. -/
inductive PyErr where
  | attributeError (msg : String) : PyErr
deriving Repr, DecidableEq

/-- Dict lookup: value stored under key `k`, if present (first occurrence,
matching Python's unique-key dicts). -/
def dictLookup (es : List (String × PyValue)) (k : String) : Option PyValue :=
  (es.find? (fun e => e.1 == k)).map Prod.snd

/-- Python `dict.get(k, default)`. -/
def dictGet (es : List (String × PyValue)) (k : String) (d : PyValue) : PyValue :=
  (dictLookup es k).getD d

/-- Python attribute access `v.get(k, d)`: defined on dicts, an
`AttributeError` on any other value (str, list and NoneType have no `get`). -/
def pyGet (v : PyValue) (k : String) (d : PyValue) : Except PyErr PyValue :=
  match v with
  | PyValue.dict es => Except.ok (dictGet es k d)
  | PyValue.none => Except.error (PyErr.attributeError "NoneType object has no attribute get")
  | PyValue.str _ => Except.error (PyErr.attributeError "str object has no attribute get")
  | PyValue.list _ => Except.error (PyErr.attributeError "list object has no attribute get")

/-- Python `isinstance(v, str)`. -/
def isinstance_str : PyValue → Bool
  | PyValue.str _ => true
  | _ => false

/-- A raised fault.  All the handler ever observes of it is its string form
`str(exc)`, so the fault is embedded as that string form. -/
structure Exc where
  strForm : String
deriving Repr, DecidableEq

/-- The ambient request/view information DRF hands to exception handlers.
Opaque to the code under study; it is only forwarded. -/
structure Context where
  ident : Nat
deriving Repr, DecidableEq

/-- A DRF response: status code, headers, and body data. -/
structure Response where
  status_code : Nat
  headers : List (String × String)
  data : PyValue
deriving Repr

/-- `core.exceptions.custom_exception_handler`, embedded from
`src/core/exceptions.py` lines 5-15.  `exception_handler` is DRF's default
formatter, an opaque external collaborator passed as a parameter.  The result
is `Except`: the Python code raises `AttributeError` when `response.data`
has no `get` attribute (line 8), which the embedding makes explicit. -/
def custom_exception_handler (exception_handler : Exc → Context → Option Response)
    (exc : Exc) (context : Context) : Except PyErr (Option Response) :=
  match exception_handler exc context with
  | Option.none => Except.ok Option.none
  | Option.some response =>
    match pyGet response.data "detail" (PyValue.str exc.strForm) with
    | Except.error e => Except.error e
    | Except.ok error_message =>
        Except.ok (Option.some
          { response with
            data := PyValue.dict
              [("error", PyValue.str (pyStr error_message)),
               ("detail",
                 if isinstance_str response.data then PyValue.none else response.data)] })

/-- Claim C1: when the baseline body is a mapping containing a `detail` key
whose value is the string `M` (possibly among other keys), the handler
returns a response whose body is the two-key mapping
`[error ↦ M, detail ↦ the entire original mapping]`, with the original
status code (and headers). -/
theorem normalize_mapping_with_detail
    (exception_handler : Exc → Context → Option Response) (exc : Exc) (context : Context)
    (r : Response) (es : List (String × PyValue)) (M : String)
    (hb : exception_handler exc context = Option.some r)
    (hd : r.data = PyValue.dict es)
    (hM : dictLookup es "detail" = Option.some (PyValue.str M)) :
    custom_exception_handler exception_handler exc context =
      Except.ok (Option.some
        { r with data := PyValue.dict [("error", PyValue.str M), ("detail", PyValue.dict es)] }) := by
  unfold custom_exception_handler
  rw [hb]
  simp [pyGet, hd, dictGet, hM, pyStr, isinstance_str]

/-- Witness for C1: the spec's validation-fault scenario, body
`[detail ↦ "This field is required.", field ↦ "name"]` at status 400. -/
theorem normalize_mapping_with_detail_witness :
    custom_exception_handler
      (fun _ _ => Option.some (Response.mk 400 []
        (PyValue.dict [("detail", PyValue.str "This field is required."),
                       ("field", PyValue.str "name")])))
      (Exc.mk "ValidationError") (Context.mk 0) =
      Except.ok (Option.some (Response.mk 400 []
        (PyValue.dict
          [("error", PyValue.str "This field is required."),
           ("detail", PyValue.dict
             [("detail", PyValue.str "This field is required."),
              ("field", PyValue.str "name")])]))) :=
  normalize_mapping_with_detail
    (fun _ _ => Option.some (Response.mk 400 []
      (PyValue.dict [("detail", PyValue.str "This field is required."),
                     ("field", PyValue.str "name")])))
    (Exc.mk "ValidationError") (Context.mk 0)
    (Response.mk 400 []
      (PyValue.dict [("detail", PyValue.str "This field is required."),
                     ("field", PyValue.str "name")]))
    [("detail", PyValue.str "This field is required."), ("field", PyValue.str "name")]
    "This field is required." rfl rfl rfl

/-- Claim C3: when the baseline body is a mapping without a `detail` key,
the handler returns a response whose body is
`[error ↦ str(exc), detail ↦ the entire original mapping]`, with the
original status code. -/
theorem normalize_mapping_without_detail
    (exception_handler : Exc → Context → Option Response) (exc : Exc) (context : Context)
    (r : Response) (es : List (String × PyValue))
    (hb : exception_handler exc context = Option.some r)
    (hd : r.data = PyValue.dict es)
    (hM : dictLookup es "detail" = Option.none) :
    custom_exception_handler exception_handler exc context =
      Except.ok (Option.some
        { r with data := PyValue.dict [("error", PyValue.str exc.strForm), ("detail", PyValue.dict es)] }) := by
  unfold custom_exception_handler
  rw [hb]
  simp [pyGet, hd, dictGet, hM, pyStr, isinstance_str]

/-- Witness for C3: a field-errors mapping with no top-level `detail` key;
`error` falls back to the fault's string form. -/
theorem normalize_mapping_without_detail_witness :
    custom_exception_handler
      (fun _ _ => Option.some (Response.mk 400 []
        (PyValue.dict [("name", PyValue.list [PyValue.str "This field is required."])])))
      (Exc.mk "ValidationError") (Context.mk 1) =
      Except.ok (Option.some (Response.mk 400 []
        (PyValue.dict
          [("error", PyValue.str "ValidationError"),
           ("detail", PyValue.dict
             [("name", PyValue.list [PyValue.str "This field is required."])])]))) :=
  normalize_mapping_without_detail
    (fun _ _ => Option.some (Response.mk 400 []
      (PyValue.dict [("name", PyValue.list [PyValue.str "This field is required."])])))
    (Exc.mk "ValidationError") (Context.mk 1)
    (Response.mk 400 []
      (PyValue.dict [("name", PyValue.list [PyValue.str "This field is required."])]))
    [("name", PyValue.list [PyValue.str "This field is required."])]
    rfl rfl rfl

/-- Claim C9: when the baseline body is a mapping in which the key `detail`
is present with value `None`, the handler sets `error` to `str(None)`,
i.e. the string `"None"`, not to the fault's string form: the fallback to
`str(exc)` applies only when the `detail` key is absent. -/
theorem normalize_detail_none_value
    (exception_handler : Exc → Context → Option Response) (exc : Exc) (context : Context)
    (r : Response) (es : List (String × PyValue))
    (hb : exception_handler exc context = Option.some r)
    (hd : r.data = PyValue.dict es)
    (hM : dictLookup es "detail" = Option.some PyValue.none) :
    custom_exception_handler exception_handler exc context =
      Except.ok (Option.some
        { r with data := PyValue.dict [("error", PyValue.str "None"), ("detail", PyValue.dict es)] }) := by
  unfold custom_exception_handler
  rw [hb]
  simp [pyGet, hd, dictGet, hM, pyStr, pyRepr, isinstance_str]

/-- Witness for C9: body `[detail ↦ None, code ↦ "x"]`; the normalized
`error` field is the string `"None"` even though `str(exc)` is
`"SomeFault"`. -/
theorem normalize_detail_none_value_witness :
    custom_exception_handler
      (fun _ _ => Option.some (Response.mk 400 []
        (PyValue.dict [("detail", PyValue.none), ("code", PyValue.str "x")])))
      (Exc.mk "SomeFault") (Context.mk 2) =
      Except.ok (Option.some (Response.mk 400 []
        (PyValue.dict
          [("error", PyValue.str "None"),
           ("detail", PyValue.dict [("detail", PyValue.none), ("code", PyValue.str "x")])]))) :=
  normalize_detail_none_value
    (fun _ _ => Option.some (Response.mk 400 []
      (PyValue.dict [("detail", PyValue.none), ("code", PyValue.str "x")])))
    (Exc.mk "SomeFault") (Context.mk 2)
    (Response.mk 400 [] (PyValue.dict [("detail", PyValue.none), ("code", PyValue.str "x")]))
    [("detail", PyValue.none), ("code", PyValue.str "x")]
    rfl rfl rfl

/-- Claim C7: whenever the handler returns a response, that response carries
the status code and headers of the baseline response unchanged; only the
body is replaced. -/
theorem normalize_preserves_status_and_headers
    (exception_handler : Exc → Context → Option Response) (exc : Exc) (context : Context)
    (r r' : Response)
    (hb : exception_handler exc context = Option.some r)
    (hr : custom_exception_handler exception_handler exc context = Except.ok (Option.some r')) :
    r'.status_code = r.status_code ∧ r'.headers = r.headers := by
  unfold custom_exception_handler at hr
  rw [hb] at hr
  cases hdata : r.data <;> simp [pyGet, hdata] at hr
  subst hr
  exact ⟨rfl, rfl⟩

/-- Witness for C7: a 404 baseline with one header; the normalized response
keeps status 404 and the header list. -/
theorem normalize_preserves_status_and_headers_witness :
    (404 : Nat) = 404 ∧
      ([("WWW-Authenticate", "Bearer")] : List (String × String)) =
        [("WWW-Authenticate", "Bearer")] :=
  normalize_preserves_status_and_headers
    (fun _ _ => Option.some (Response.mk 404 [("WWW-Authenticate", "Bearer")]
      (PyValue.dict [("detail", PyValue.str "Not found.")])))
    (Exc.mk "NotFound") (Context.mk 3)
    (Response.mk 404 [("WWW-Authenticate", "Bearer")]
      (PyValue.dict [("detail", PyValue.str "Not found.")]))
    (Response.mk 404 [("WWW-Authenticate", "Bearer")]
      (PyValue.dict
        [("error", PyValue.str "Not found."),
         ("detail", PyValue.dict [("detail", PyValue.str "Not found.")])]))
    rfl rfl

/-- Claim C8: the handler is deterministic and stateless: its result is a
function of the fault's string form and the baseline formatter's result
alone, so two invocations agreeing on those produce identical outputs. -/
theorem normalize_deterministic_stateless
    (eh eh' : Exc → Context → Option Response) (exc exc' : Exc) (context context' : Context)
    (hstr : exc.strForm = exc'.strForm)
    (hb : eh exc context = eh' exc' context') :
    custom_exception_handler eh exc context = custom_exception_handler eh' exc' context' := by
  unfold custom_exception_handler
  rw [hb, hstr]

/-- Witness for C8: two invocations with the same fault and baseline result
but different contexts agree. -/
theorem normalize_deterministic_stateless_witness :
    custom_exception_handler
      (fun _ _ => Option.some (Response.mk 403 []
        (PyValue.dict [("detail", PyValue.str "Forbidden.")])))
      (Exc.mk "PermissionDenied") (Context.mk 0) =
    custom_exception_handler
      (fun _ _ => Option.some (Response.mk 403 []
        (PyValue.dict [("detail", PyValue.str "Forbidden.")])))
      (Exc.mk "PermissionDenied") (Context.mk 7) :=
  normalize_deterministic_stateless
    (fun _ _ => Option.some (Response.mk 403 []
      (PyValue.dict [("detail", PyValue.str "Forbidden.")])))
    (fun _ _ => Option.some (Response.mk 403 []
      (PyValue.dict [("detail", PyValue.str "Forbidden.")])))
    (Exc.mk "PermissionDenied") (Exc.mk "PermissionDenied")
    (Context.mk 0) (Context.mk 7) rfl rfl

/-- Claim C10: when the baseline body is a mapping containing a `detail`
key, the output does not depend on the fault at all: two invocations with
identical baseline responses but arbitrary different faults produce
identical results. -/
theorem normalize_fault_independent_when_detail_present
    (eh eh' : Exc → Context → Option Response) (exc exc' : Exc) (context context' : Context)
    (r : Response) (es : List (String × PyValue)) (v : PyValue)
    (hb : eh exc context = Option.some r)
    (hb' : eh' exc' context' = Option.some r)
    (hd : r.data = PyValue.dict es)
    (hM : dictLookup es "detail" = Option.some v) :
    custom_exception_handler eh exc context = custom_exception_handler eh' exc' context' := by
  unfold custom_exception_handler
  rw [hb, hb']
  simp [pyGet, hd, dictGet, hM]

/-- Witness for C10: two different faults, same baseline body containing a
`detail` key, identical normalized outputs. -/
theorem normalize_fault_independent_when_detail_present_witness :
    custom_exception_handler
      (fun _ _ => Option.some (Response.mk 400 []
        (PyValue.dict [("detail", PyValue.str "Bad request.")])))
      (Exc.mk "FaultA") (Context.mk 0) =
    custom_exception_handler
      (fun _ _ => Option.some (Response.mk 400 []
        (PyValue.dict [("detail", PyValue.str "Bad request.")])))
      (Exc.mk "FaultB") (Context.mk 1) :=
  normalize_fault_independent_when_detail_present
    (fun _ _ => Option.some (Response.mk 400 []
      (PyValue.dict [("detail", PyValue.str "Bad request.")])))
    (fun _ _ => Option.some (Response.mk 400 []
      (PyValue.dict [("detail", PyValue.str "Bad request.")])))
    (Exc.mk "FaultA") (Exc.mk "FaultB") (Context.mk 0) (Context.mk 1)
    (Response.mk 400 [] (PyValue.dict [("detail", PyValue.str "Bad request.")]))
    [("detail", PyValue.str "Bad request.")]
    (PyValue.str "Bad request.")
    rfl rfl rfl rfl

/-- Claim C2 (code bug): on a plain-string baseline body the code does not
return the envelope the spec describes — line 8's `response.data.get`
raises `AttributeError`, because `str` has no `get` attribute, before the
string-handling branch of line 11 can run.  Evaluated at the spec's own
authentication scenario. -/
theorem normalize_string_body_raises :
    custom_exception_handler
      (fun _ _ => Option.some (Response.mk 401 []
        (PyValue.str "Authentication credentials were not provided.")))
      (Exc.mk "NotAuthenticated") (Context.mk 0) =
      Except.error (PyErr.attributeError "str object has no attribute get") := rfl

/-- Claim C4 (code bug): the first half holds — when the default formatter
returns `None` the handler returns `None` — but the converse fails: on a
baseline response with a list body the handler raises `AttributeError`
instead of returning a rewritten response. -/
theorem normalize_none_propagates_but_list_crashes :
    custom_exception_handler (fun _ _ => Option.none)
        (Exc.mk "RuntimeError") (Context.mk 0) = Except.ok Option.none ∧
    custom_exception_handler
        (fun _ _ => Option.some (Response.mk 429 []
          (PyValue.list [PyValue.str "Request was throttled."])))
        (Exc.mk "Throttled") (Context.mk 0) =
      Except.error (PyErr.attributeError "list object has no attribute get") :=
  ⟨rfl, rfl⟩

/-- Claim C5 (code bug): the handler is not raise-free — a baseline body of
shape `None` makes line 8's `.get` raise `AttributeError`. -/
theorem normalize_raises_on_none_body :
    custom_exception_handler
      (fun _ _ => Option.some (Response.mk 500 [] PyValue.none))
      (Exc.mk "ServerError") (Context.mk 3) =
      Except.error (PyErr.attributeError "NoneType object has no attribute get") := rfl

/-- Claim C6 (code bug): on a non-mapping, non-string body (a list) the
handler does not produce the envelope with `detail` set to the list — it
raises `AttributeError` at line 8. -/
theorem normalize_list_body_raises :
    custom_exception_handler
      (fun _ _ => Option.some (Response.mk 400 []
        (PyValue.list [PyValue.str "Invalid input."])))
      (Exc.mk "ValidationError") (Context.mk 4) =
      Except.error (PyErr.attributeError "list object has no attribute get") := rfl
